import Mathlib

/-!
Verification of the conversation-reconstruction and streaming-orchestration
core of the python-agent repository.

The embedding follows `agent/agent.py` (class `ConversationalAgent`),
`agent/tools.py`, `agent/client.py`, `agent/models.py` and
`api/routes.py`.  Python strings are embedded as `String` (operating on
`s.data : List Char` where positional reasoning is needed), dictionaries of
the OpenAI wire format are embedded as structures holding exactly the keys
the program reads or writes, and fallible Python code is embedded as
`Except PyError _`.  The JSON round-trip `json.loads (json.dumps x)`
performed on tool-call argument payloads is modelled as the identity on the
serialized payload string, and a raw-message key that is absent is
conflated with one that is present with value null (the program reads both
through `dict.get` with a default, so the two are indistinguishable on
every path modelled here).
-/

namespace AmosAgent

/-- OpenAI function-call payload (`models.FunctionCall`): capability name and
serialized JSON arguments. -/
structure FunctionCall where
  name : String
  arguments : String
deriving DecidableEq

/-- OpenAI tool-call entry (`models.ToolCall`); the constant `"type":
"function"` discriminator is omitted. -/
structure ToolCall where
  id : String
  function : FunctionCall
deriving DecidableEq

/-- Message role (`models.Message.role`). -/
inductive Role
  | user
  | assistant
  | tool
  | system
deriving DecidableEq

/-- The `raw_message` dictionary of a persisted message, restricted to the
keys this program reads or writes.  `tool_calls = []` models an absent or
empty `tool_calls` key; `content = none` models an absent or null content. -/
structure RawMessage where
  role : String
  content : Option String
  tool_calls : List ToolCall
  tool_call_id : Option String
  name : Option String
deriving DecidableEq

/-- A persisted message row (`models.Message`), also the argument record of
`BackendClient.save_message`; the backend-generated identifier, conversation
identifier and timestamp are not read by the core and are omitted. -/
structure Message where
  role : Role
  content : Option String
  tool_call_id : Option String
  raw_message : RawMessage
deriving DecidableEq

/-- LangChain-format tool call (`{"name", "args", "id"}`) as built by
`load_conversation_history`; the parsed `args` object is modelled by its
serialized payload string. -/
structure LCToolCall where
  name : String
  args : String
  id : String
deriving DecidableEq

/-- LangChain message (`HumanMessage` / `AIMessage` / `ToolMessage` /
`SystemMessage`).  An `AIMessage` without tool calls is `ai content []`. -/
inductive LCMessage
  | human (content : String)
  | ai (content : String) (tool_calls : List LCToolCall)
  | toolMsg (content : String) (tool_call_id : String) (name : String)
  | system (content : String)
deriving DecidableEq

/-- OpenAI-to-LangChain tool-call conversion performed inside
`load_conversation_history`. -/
def toLCToolCall (tc : ToolCall) : LCToolCall :=
  { name := tc.function.name, args := tc.function.arguments, id := tc.id }

/-- The per-message conversion of `ConversationalAgent.load_conversation_history`
(agent.py lines 86-124): `user` becomes a `HumanMessage`, `assistant` with a
non-empty `tool_calls` payload becomes an `AIMessage` carrying all of those
tool calls and content `raw.get("content") or ""`, `assistant` without tool
calls becomes a plain `AIMessage`, `tool` becomes a `ToolMessage` with the
`"unknown"` name default, and any other role (the loop has no branch for
`system`) yields nothing. -/
def convertMessage (msg : Message) : Option LCMessage :=
  match msg.role with
  | Role.user => some (LCMessage.human (msg.raw_message.content.getD ""))
  | Role.assistant =>
    if msg.raw_message.tool_calls ≠ [] then
      some (LCMessage.ai (msg.raw_message.content.getD "")
        (msg.raw_message.tool_calls.map toLCToolCall))
    else
      some (LCMessage.ai (msg.raw_message.content.getD "") [])
  | Role.tool =>
    some (LCMessage.toolMsg (msg.raw_message.content.getD "")
      (msg.raw_message.tool_call_id.getD "")
      (msg.raw_message.name.getD "unknown"))
  | Role.system => none

/-- `ConversationalAgent.load_conversation_history`: walk the persisted
messages in order, appending the conversion of each handled role. -/
def load_conversation_history (msgs : List Message) : List LCMessage :=
  msgs.filterMap convertMessage

/-- The user message of the C1 scenario log. -/
def userHiMsg : Message :=
  { role := Role.user, content := some "hi", tool_call_id := none,
    raw_message := { role := "user", content := some "hi", tool_calls := [],
                     tool_call_id := none, name := none } }

/-- The orphaned tool-calling assistant message of the C1 scenario log:
one tool call `c1` naming `search_knowledge_base`, null content. -/
def asstC1 : Message :=
  { role := Role.assistant, content := none, tool_call_id := none,
    raw_message :=
      { role := "assistant", content := none,
        tool_calls :=
          [{ id := "c1",
             function := { name := "search_knowledge_base", arguments := "\x7b\x7d" } }],
        tool_call_id := none, name := none } }

/-- The C1 scenario log: `[user "hi", assistant{tool_calls:[c1], content:null}]`
with no tool message. -/
def exLogC1 : List Message := [userHiMsg, asstC1]

/-- C1 counterexample: on the log `[user "hi", assistant{tool_calls:[c1],
content:null}]` with no matching tool message, `load_conversation_history`
returns the assistant turn with its unanswered tool call intact — it does
not drop the orphaned turn, so the reconstructed state is not `[user "hi"]`
even though no tool-role message for `c1` exists anywhere in the log. -/
theorem C1_counterexample :
    load_conversation_history exLogC1 =
      [LCMessage.human "hi",
       LCMessage.ai "" [{ name := "search_knowledge_base", args := "\x7b\x7d", id := "c1" }]] ∧
    load_conversation_history exLogC1 ≠ [LCMessage.human "hi"] ∧
    (exLogC1.all fun m => !(decide (m.role = Role.tool))) = true := by
  decide

/-- C1 (amended): history reconstruction performs no orphan filtering: every
assistant message whose payload carries a non-empty tool-call list is
converted to an assistant turn carrying all of its tool calls (content
defaulting to the empty string when null), whether or not any tool-result
message exists in the log, and that turn is a member of the reconstructed
state. -/
theorem C1_no_orphan_filtering (msgs : List Message) (m : Message)
    (h1 : m ∈ msgs) (h2 : m.role = Role.assistant)
    (h3 : m.raw_message.tool_calls ≠ []) :
    LCMessage.ai (m.raw_message.content.getD "")
        (m.raw_message.tool_calls.map toLCToolCall) ∈ load_conversation_history msgs := by
  unfold load_conversation_history
  refine List.mem_filterMap.mpr ⟨m, h1, ?_⟩
  unfold convertMessage
  rw [h2]
  simp [h3]

/-- C1 (amended) witness: the orphaned assistant turn of the scenario log is
reconstructed with its tool call. -/
theorem C1_no_orphan_filtering_witness :
    LCMessage.ai (asstC1.raw_message.content.getD "")
        (asstC1.raw_message.tool_calls.map toLCToolCall) ∈ load_conversation_history exLogC1 :=
  C1_no_orphan_filtering exLogC1 asstC1 (by decide) (by decide) (by decide)

/-! ## Stream orchestrator (`ConversationalAgent.chat`, agent.py lines 148-322) -/

/-- Python `str.lower()` applied characterwise. -/
def pyLower (s : String) : String := String.mk (s.data.map Char.toLower)

/-- The truncation marker appended at agent.py line 298. -/
def truncMarker : String := "... (truncated)"

/-- The preview computation of agent.py lines 296-298: the first 300
characters of the tool output, with the truncation marker appended exactly
when the output is longer than 300 characters. -/
def output_preview (s : String) : String :=
  let p := String.mk (s.data.take 300)
  if 300 < s.length then p ++ truncMarker else p

/-- The failure phrases scanned at agent.py lines 292-293. -/
def failure_phrases : List String := ["no relevant", "not found", "error"]

/-- The success heuristic of agent.py lines 292-293: the output is a success
unless its lowercased text contains one of the failure phrases. -/
def is_success (out : String) : Bool :=
  !(failure_phrases.any fun p => decide (p.data <:+: (pyLower out).data))

/-- The status string of the `tool_call_end` stream event (agent.py 305). -/
def tool_status (out : String) : String :=
  if is_success out then "success" else "error"

/-- The events of the Agent Runtime's stream that `chat` dispatches on:
`on_chat_model_stream` (with the chunk's content), `on_tool_start` (with the
capability name and the serialized input), `on_tool_end` (with the
capability name and the output text), and any other event kind. -/
inductive AgentEvent
  | contentChunk (content : String)
  | toolStart (name : String) (input : String)
  | toolEnd (name : String) (output : String)
  | other
deriving DecidableEq

/-- The normalized events yielded to the caller (`"content"`,
`"tool_call_start"`, `"tool_call_end"`, `"error"`), with their payloads. -/
inductive StreamEvent
  | content (data : String)
  | toolCallStart (id : String) (name : String) (args : String)
  | toolCallEnd (id : Option String) (name : String) (status : String) (preview : String)
  | error (message : String)
deriving DecidableEq

/-- The mutable accumulators of the event loop (agent.py lines 182-185),
plus a counter feeding the call-identifier generator that models
`f"call_{str(uuid.uuid4())[:8]}"`. -/
structure ChatState where
  current_tool_calls : List ToolCall
  tool_call_assistant_saved : Bool
  final_response : String
  in_final_response : Bool
  counter : Nat
deriving DecidableEq

/-- The accumulator state at loop entry. -/
def initialChatState : ChatState :=
  { current_tool_calls := [], tool_call_assistant_saved := false,
    final_response := "", in_final_response := false, counter := 0 }

/-- The user record persisted at agent.py lines 165-172. -/
def userSaveRecord (user_message : String) : Message :=
  { role := Role.user, content := some user_message, tool_call_id := none,
    raw_message :=
      { role := "user", content := some user_message, tool_calls := [],
        tool_call_id := none, name := none } }

/-- The assistant record with tool calls persisted at agent.py lines 236-249
(null content, the accumulated calls as payload). -/
def assistantToolCallsSave (calls : List ToolCall) : Message :=
  { role := Role.assistant, content := none, tool_call_id := none,
    raw_message :=
      { role := "assistant", content := none, tool_calls := calls,
        tool_call_id := none, name := none } }

/-- The tool-result record persisted at agent.py lines 276-289. -/
def toolResultSave (name output id : String) : Message :=
  { role := Role.tool, content := some output, tool_call_id := some id,
    raw_message :=
      { role := "tool", content := some output, tool_calls := [],
        tool_call_id := some id, name := some name } }

/-- The final assistant record persisted at agent.py lines 310-322. -/
def finalAssistantSave (final_response : String) : Message :=
  { role := Role.assistant, content := some final_response, tool_call_id := none,
    raw_message :=
      { role := "assistant", content := some final_response, tool_calls := [],
        tool_call_id := none, name := none } }

/-- One iteration of the event loop of `ConversationalAgent.chat`
(agent.py lines 187-308), returning the updated accumulator state, the
records persisted via `save_message` during this iteration, and the stream
events yielded.  `gen st.counter` models the fresh
`f"call_{str(uuid.uuid4())[:8]}"` identifier. -/
def handleEvent (gen : Nat → String) (st : ChatState) :
    AgentEvent → ChatState × List Message × List StreamEvent
  | AgentEvent.contentChunk c =>
    if c = "" then (st, [], [])
    else
      ({ st with
          final_response := st.final_response ++ c,
          in_final_response :=
            if st.current_tool_calls ≠ [] ∧ st.tool_call_assistant_saved = true then true
            else st.in_final_response },
       [], [StreamEvent.content c])
  | AgentEvent.toolStart name input =>
    let tool_call_id := gen st.counter
    let calls0 := if st.tool_call_assistant_saved then [] else st.current_tool_calls
    let saved0 := if st.tool_call_assistant_saved then false else st.tool_call_assistant_saved
    let tc : ToolCall := { id := tool_call_id, function := { name := name, arguments := input } }
    let calls1 := calls0 ++ [tc]
    let doSave := !saved0 && !calls1.isEmpty
    ({ st with
        current_tool_calls := calls1,
        tool_call_assistant_saved := if doSave then true else saved0,
        counter := st.counter + 1 },
     if doSave then [assistantToolCallsSave calls1] else [],
     [StreamEvent.toolCallStart tool_call_id name input])
  | AgentEvent.toolEnd name output =>
    let matching := st.current_tool_calls.find? fun tc => tc.function.name == name
    (st,
     (match matching with
      | some tc => [toolResultSave name output tc.id]
      | none => []),
     [StreamEvent.toolCallEnd (matching.map ToolCall.id) name (tool_status output)
        (output_preview output)])
  | AgentEvent.other => (st, [], [])

/-- The event loop folded over the whole stream: final state, all persisted
records in order, all yielded events in order. -/
def processEvents (gen : Nat → String) (st : ChatState) :
    List AgentEvent → ChatState × List Message × List StreamEvent
  | [] => (st, [], [])
  | e :: es =>
    let r1 := handleEvent gen st e
    let r2 := processEvents gen r1.1 es
    (r2.1, r1.2.1 ++ r2.2.1, r1.2.2 ++ r2.2.2)

/-- A concrete stand-in for the process-unique call-identifier generator
`f"call_{str(uuid.uuid4())[:8]}"` (agent.py line 216), used in closed runs. -/
def genSeq (n : Nat) : String := "call_" ++ toString n

/-- An event stream in which the Agent Runtime starts two calls of the same
capability name and then reports two completions of that name. -/
def sameNameEvents : List AgentEvent :=
  [AgentEvent.toolStart "search_knowledge_base" "\x7b\x7d",
   AgentEvent.toolStart "search_knowledge_base" "\x7b\x7d",
   AgentEvent.toolEnd "search_knowledge_base" "out1",
   AgentEvent.toolEnd "search_knowledge_base" "out2"]

/-- C2 counterexample: when two calls of the same capability name are started
before either completes, the two completions are both matched to the same
(latest) call identifier — the two persisted tool-role records carry the
identical `tool_call_id`, not two distinct ones. -/
theorem C2_counterexample :
    ((processEvents genSeq initialChatState sameNameEvents).2.1.filter
        (fun m => decide (m.role = Role.tool))).map Message.tool_call_id =
      [some "call_1", some "call_1"] := by
  decide

/-- Invariant of the event-loop accumulator: the current group holds at most
one call, and an unsaved group is empty (every `on_tool_start` immediately
persists the group it just extended). -/
def callsInvariant (st : ChatState) : Prop :=
  st.current_tool_calls.length ≤ 1 ∧
    (st.tool_call_assistant_saved = false → st.current_tool_calls = [])

lemma handleEvent_callsInvariant (gen : Nat → String) (st : ChatState) (e : AgentEvent)
    (h : callsInvariant st) : callsInvariant (handleEvent gen st e).1 := by
  rcases h with ⟨h1, h2⟩
  cases e with
  | contentChunk c =>
    by_cases hc : c = "" <;> simp [handleEvent, hc, callsInvariant] <;> exact ⟨h1, h2⟩
  | toolStart name input =>
    cases hsv : st.tool_call_assistant_saved with
    | true => simp [handleEvent, hsv, callsInvariant]
    | false => simp [handleEvent, hsv, h2 hsv, callsInvariant]
  | toolEnd name output => exact ⟨h1, h2⟩
  | other => exact ⟨h1, h2⟩

lemma processEvents_callsInvariant (gen : Nat → String) (evs : List AgentEvent)
    (st : ChatState) (h : callsInvariant st) :
    callsInvariant (processEvents gen st evs).1 := by
  induction evs generalizing st with
  | nil => simpa [processEvents] using h
  | cons e es ih => simpa [processEvents] using ih _ (handleEvent_callsInvariant gen st e h)

/-- C2 (amended): a tool-completion event is matched to the first entry of
`current_tool_calls` bearing the same capability name, with no tracking of
already-matched entries; when such an entry exists, a tool-role record with
the output text, the matched call identifier and the capability name is
persisted in that same iteration, and the emitted `tool_call_end` event
carries the matched identifier.  Moreover, starting from the initial state
the group never holds more than one pending call (each `on_tool_start`
persists and thus closes the group), so two completions whose starts both
preceded them are paired with the single latest identifier rather than two
distinct ones. -/
theorem C2_completion_matching (gen : Nat → String) (st : ChatState)
    (name out : String) (tc : ToolCall)
    (h : st.current_tool_calls.find? (fun c => c.function.name == name) = some tc) :
    (handleEvent gen st (AgentEvent.toolEnd name out)).2.1 = [toolResultSave name out tc.id] ∧
    (handleEvent gen st (AgentEvent.toolEnd name out)).2.2 =
      [StreamEvent.toolCallEnd (some tc.id) name (tool_status out) (output_preview out)] ∧
    ∀ evs, (processEvents gen initialChatState evs).1.current_tool_calls.length ≤ 1 := by
  refine ⟨by simp [handleEvent, h], by simp [handleEvent, h], fun evs => ?_⟩
  exact (processEvents_callsInvariant gen evs initialChatState
    (by simp [callsInvariant, initialChatState])).1

/-- A loop state holding one pending `search_knowledge_base` call. -/
def stC2 : ChatState :=
  { current_tool_calls :=
      [{ id := "call_7",
         function := { name := "search_knowledge_base", arguments := "\x7b\x7d" } }],
    tool_call_assistant_saved := true, final_response := "", in_final_response := false,
    counter := 1 }

/-- C2 (amended) witness: a completion of `search_knowledge_base` against a
state with one pending call of that name persists the tool-role record with
the pending call's identifier. -/
theorem C2_completion_matching_witness :
    (handleEvent genSeq stC2 (AgentEvent.toolEnd "search_knowledge_base" "ok")).2.1 =
      [toolResultSave "search_knowledge_base" "ok" "call_7"] :=
  (C2_completion_matching genSeq stC2 "search_knowledge_base" "ok"
    { id := "call_7",
      function := { name := "search_knowledge_base", arguments := "\x7b\x7d" } }
    (by decide)).1

/-- C6: the `tool_call_end` preview is the unmodified output when the output
has at most 300 characters (including exactly 300), and the 300-character
prefix followed by the truncation marker when the output has 301 or more. -/
theorem C6_preview_truncation (s : String) :
    (s.length ≤ 300 → output_preview s = s) ∧
    (301 ≤ s.length →
      output_preview s = String.mk (s.data.take 300) ++ truncMarker ∧
      (String.mk (s.data.take 300)).length = 300) := by
  constructor
  · intro h
    have hd : s.data.length ≤ 300 := h
    unfold output_preview
    rw [if_neg (by omega : ¬ 300 < s.length), List.take_of_length_le hd]
  · intro h
    refine ⟨?_, ?_⟩
    · unfold output_preview
      rw [if_pos (by omega : 300 < s.length)]
    · have hd : 301 ≤ s.data.length := h
      show (s.data.take 300).length = 300
      rw [List.length_take]
      exact Nat.min_eq_left (by omega : 300 ≤ s.data.length)

set_option maxRecDepth 4000 in
/-- C6 witness: a 301-character output is previewed as its 300-character
prefix plus the marker; a 300-character output is previewed unmodified. -/
theorem C6_preview_truncation_witness :
    output_preview (String.mk (List.replicate 300 'a')) = String.mk (List.replicate 300 'a') ∧
    (output_preview (String.mk (List.replicate 301 'a')) =
        String.mk ((String.mk (List.replicate 301 'a')).data.take 300) ++ truncMarker ∧
      (String.mk ((String.mk (List.replicate 301 'a')).data.take 300)).length = 300) :=
  ⟨(C6_preview_truncation (String.mk (List.replicate 300 'a'))).1 (by decide),
   (C6_preview_truncation (String.mk (List.replicate 301 'a'))).2 (by decide)⟩

/-- C7: the `tool_call_end` status is `"error"` precisely when the lowercased
output contains one of the failure phrases `"no relevant"`, `"not found"`,
`"error"`, and `"success"` otherwise; the output `"No relevant information
found."` is classified `"error"`; and the classification only ever feeds the
`tool_call_end` event emitted by the completion handler — it never produces
a stream-level error event. -/
theorem C7_status_classification (out : String) :
    (tool_status out = "error" ↔ ∃ p ∈ failure_phrases, p.data <:+: (pyLower out).data) ∧
    (tool_status out = "error" ∨ tool_status out = "success") ∧
    tool_status "No relevant information found." = "error" ∧
    (∀ gen st name, (handleEvent gen st (AgentEvent.toolEnd name out)).2.2 =
      [StreamEvent.toolCallEnd
        ((st.current_tool_calls.find? fun c => c.function.name == name).map ToolCall.id)
        name (tool_status out) (output_preview out)]) := by
  refine ⟨?_, ?_, by decide, fun gen st name => rfl⟩
  · cases hb : (failure_phrases.any fun p => decide (p.data <:+: (pyLower out).data)) with
    | false =>
      constructor
      · intro h
        exact absurd h (by simp [tool_status, is_success, hb])
      · intro hex
        exact absurd hb (by simpa using hex)
    | true =>
      constructor
      · intro _
        simpa using hb
      · intro _
        simp [tool_status, is_success, hb]
  · unfold tool_status
    split
    · exact Or.inr rfl
    · exact Or.inl rfl

/-- The fixed system prompt (agent.py lines 14-55).  It is a configuration
constant whose exact text is immaterial to the control flow; it is
abbreviated here to its opening sentence. -/
def SYSTEM_PROMPT : String :=
  "You are a specialized AI assistant for a company's Q&A knowledge base system."

/-- The `SystemMessage` the orchestrator may prepend (agent.py line 69). -/
def systemTurn : LCMessage := LCMessage.system SYSTEM_PROMPT

/-- Whether a LangChain message is a `SystemMessage`. -/
def isSystemLC : LCMessage → Bool
  | LCMessage.system _ => true
  | _ => false

/-- The prepend condition of agent.py line 161:
`not history or not isinstance(history[0], SystemMessage)`. -/
def needsSystem : List LCMessage → Bool
  | [] => true
  | LCMessage.system _ :: _ => false
  | _ :: _ => true

/-- Lines 161-162 of agent.py: insert the system turn at the front when the
loaded history is empty or does not begin with a system turn. -/
def prependSystem (h : List LCMessage) : List LCMessage :=
  if needsSystem h then systemTurn :: h else h

/-- The Agent Runtime's stream as consumed by `chat`: the events it yields
in order, and `failure = some description` when `astream_events` raises
after yielding them (`none` for a normally completed stream). -/
structure AgentStream where
  events : List AgentEvent
  failure : Option String

/-- The observable trace of one `ConversationalAgent.chat` invocation: the
dialogue state handed to the Agent Runtime, the records persisted via
`save_message` in order, the stream events yielded to the caller, and the
exception description when the run raised. -/
structure ChatRun where
  invoked : List LCMessage
  saves : List Message
  yields : List StreamEvent
  raised : Option String

/-- `ConversationalAgent.chat` (agent.py lines 148-322): load and convert the
history, prepend the system turn when needed, persist the user message,
append the user turn, consume the Agent Runtime's events, and — only when
the stream completed without raising — persist the accumulated final
response as a content-only assistant record when it is non-empty.  When the
stream raises, the exception propagates out of the generator, so the final
assistant save is skipped and the records persisted before the failure
remain. -/
def chat (gen : Nat → String) (persisted : List Message) (user_message : String)
    (stream : AgentStream) : ChatRun :=
  let history2 :=
    prependSystem (load_conversation_history persisted) ++ [LCMessage.human user_message]
  let r := processEvents gen initialChatState stream.events
  { invoked := history2,
    saves := userSaveRecord user_message ::
      (r.2.1 ++
        match stream.failure with
        | some _ => []
        | none =>
          if r.1.final_response ≠ "" then [finalAssistantSave r.1.final_response] else []),
    yields := r.2.2,
    raised := stream.failure }

/-- The `generate` wrapper of `send_message` (routes.py lines 36-47): relay
the chat events; if the chat generator raises, yield one terminal error
event carrying the exception description and stop. -/
def send_message (gen : Nat → String) (persisted : List Message) (msg : String)
    (stream : AgentStream) : List StreamEvent :=
  let r := chat gen persisted msg stream
  match r.raised with
  | none => r.yields
  | some e => r.yields ++ [StreamEvent.error e]

/-- Whether a stream event is the terminal error marker. -/
def isErrorEvent : StreamEvent → Bool
  | StreamEvent.error _ => true
  | _ => false

lemma processEvents_saves_mem (gen : Nat → String) (evs : List AgentEvent) (st : ChatState)
    (m : Message) (h : m ∈ (processEvents gen st evs).2.1) :
    m.role = Role.tool ∨ (m.role = Role.assistant ∧ m.content = none) := by
  induction evs generalizing st with
  | nil => simp [processEvents] at h
  | cons e es ih =>
    simp only [processEvents, List.mem_append] at h
    rcases h with h | h
    · cases e with
      | contentChunk c =>
        by_cases hc : c = "" <;> simp [handleEvent, hc] at h
      | toolStart name input =>
        simp only [handleEvent] at h
        split at h
        · rcases List.mem_singleton.mp h with rfl
          exact Or.inr ⟨rfl, rfl⟩
        · split at h
          · rcases List.mem_singleton.mp h with rfl
            exact Or.inr ⟨rfl, rfl⟩
          · simp at h
      | toolEnd name output =>
        simp only [handleEvent] at h
        rcases hm : st.current_tool_calls.find? (fun tc => tc.function.name == name) with _ | tc
        · rw [hm] at h
          simp at h
        · rw [hm] at h
          rcases List.mem_singleton.mp h with rfl
          exact Or.inl rfl
      | other => simp [handleEvent] at h
    · exact ih _ h

lemma processEvents_no_error_event (gen : Nat → String) (evs : List AgentEvent) (st : ChatState)
    (ev : StreamEvent) (h : ev ∈ (processEvents gen st evs).2.2) :
    isErrorEvent ev = false := by
  induction evs generalizing st with
  | nil => simp [processEvents] at h
  | cons e es ih =>
    simp only [processEvents, List.mem_append] at h
    rcases h with h | h
    · cases e with
      | contentChunk c =>
        by_cases hc : c = "" <;> simp [handleEvent, hc] at h
        rcases h with rfl
        rfl
      | toolStart name input =>
        simp only [handleEvent] at h
        rcases List.mem_singleton.mp h with rfl
        rfl
      | toolEnd name output =>
        simp only [handleEvent] at h
        rcases List.mem_singleton.mp h with rfl
        rfl
      | other => simp [handleEvent] at h
    · exact ih _ h

/-- Case description of `convertMessage` on a successfully converted row. -/
lemma convertMessage_shape (m : Message) (t : LCMessage) (h : convertMessage m = some t) :
    (m.role = Role.user ∧ t = LCMessage.human (m.raw_message.content.getD "")) ∨
    (m.role = Role.assistant ∧ ∃ tcs, t = LCMessage.ai (m.raw_message.content.getD "") tcs) ∨
    (m.role = Role.tool ∧ t = LCMessage.toolMsg (m.raw_message.content.getD "")
        (m.raw_message.tool_call_id.getD "") (m.raw_message.name.getD "unknown")) := by
  cases hr : m.role
  · simp only [convertMessage, hr, Option.some.injEq] at h
    exact Or.inl ⟨rfl, h.symm⟩
  · refine Or.inr (Or.inl ⟨rfl, ?_⟩)
    simp only [convertMessage, hr] at h
    split at h <;> exact ⟨_, (Option.some.inj h).symm⟩
  · refine Or.inr (Or.inr ⟨rfl, ?_⟩)
    simp only [convertMessage, hr, Option.some.injEq] at h
    exact h.symm
  · simp only [convertMessage, hr] at h
    exact Option.noConfusion h

lemma load_of_saves_not_human (gen : Nat → String) (evs : List AgentEvent) (st : ChatState)
    (t : LCMessage)
    (ht : t ∈ load_conversation_history (processEvents gen st evs).2.1) :
    ∀ c, t ≠ LCMessage.human c := by
  intro c hEq
  subst hEq
  rcases List.mem_filterMap.mp ht with ⟨m, hm, hconv⟩
  rcases convertMessage_shape m _ hconv with ⟨hr, _⟩ | ⟨hr, _, hv⟩ | ⟨hr, hv⟩
  · rcases processEvents_saves_mem gen evs st m hm with h | ⟨h, _⟩ <;>
      (rw [hr] at h; exact Role.noConfusion h)
  · cases hv
  · cases hv

/-- C3: when the Agent Runtime's stream raises after any prefix of events,
the caller-facing stream is exactly the events yielded so far followed by a
single terminal error event carrying the description (no yielded event
before it is an error event, so the stream is never silently truncated);
the persisted records are exactly the user record plus everything persisted
before the failure — nothing is rolled back and no final assistant record
(an assistant record with non-null content) is persisted in that path. -/
theorem C3_terminal_error (gen : Nat → String) (persisted : List Message) (msg : String)
    (events : List AgentEvent) (e : String) :
    send_message gen persisted msg ⟨events, some e⟩ =
      (chat gen persisted msg ⟨events, some e⟩).yields ++ [StreamEvent.error e] ∧
    ((chat gen persisted msg ⟨events, some e⟩).yields.all fun ev => !(isErrorEvent ev)) = true ∧
    (chat gen persisted msg ⟨events, some e⟩).saves =
      userSaveRecord msg :: (processEvents gen initialChatState events).2.1 ∧
    ((chat gen persisted msg ⟨events, some e⟩).saves.all fun m =>
        !(decide (m.role = Role.assistant)) || decide (m.content = none)) = true := by
  refine ⟨rfl, ?_, by simp [chat], ?_⟩
  · rw [List.all_eq_true]
    intro ev hev
    have : isErrorEvent ev = false :=
      processEvents_no_error_event gen events initialChatState ev (by simpa [chat] using hev)
    simp [this]
  · rw [List.all_eq_true]
    intro m hm
    simp only [chat, List.append_nil, List.mem_cons] at hm
    rcases hm with rfl | hm
    · simp [userSaveRecord]
    · rcases processEvents_saves_mem gen events initialChatState m hm with h | ⟨h1, h2⟩
      · simp [h]
      · simp [h1, h2]

/-- C4: in a run whose agent invocation fails, the user message was already
persisted: the very first persisted record is the user-role record carrying
the message (persisted before any record caused by an agent event), it is
the only user-role record of the run, and reloading the conversation from
the run's persisted records reconstructs the user turn exactly once. -/
theorem C4_user_message_durability (gen : Nat → String) (persisted : List Message)
    (msg : String) (events : List AgentEvent) (e : String) :
    (chat gen persisted msg ⟨events, some e⟩).saves.head? = some (userSaveRecord msg) ∧
    (chat gen persisted msg ⟨events, some e⟩).saves.filter
        (fun m => decide (m.role = Role.user)) = [userSaveRecord msg] ∧
    (load_conversation_history (chat gen persisted msg ⟨events, some e⟩).saves).filter
        (fun t => decide (t = LCMessage.human msg)) = [LCMessage.human msg] := by
  refine ⟨rfl, ?_, ?_⟩
  · simp only [chat, List.append_nil, List.filter_cons]
    rw [if_pos (by simp [userSaveRecord])]
    rw [List.filter_eq_nil_iff.mpr, List.cons.injEq]
    · exact ⟨rfl, rfl⟩
    · intro m hm
      rcases processEvents_saves_mem gen events initialChatState m hm with h | ⟨h, _⟩ <;>
        simp [h]
  · simp only [chat, List.append_nil, load_conversation_history, List.filterMap_cons]
    have hu : convertMessage (userSaveRecord msg) = some (LCMessage.human msg) := rfl
    rw [hu, List.filter_cons]
    rw [if_pos (by simp)]
    rw [List.filter_eq_nil_iff.mpr, List.cons.injEq]
    · exact ⟨rfl, rfl⟩
    · intro t ht
      have := load_of_saves_not_human gen events initialChatState t ht msg
      simp [this]

/-- C8: the fixed system turn is prepended exactly when the loaded dialogue
state is empty or its first turn is not a system turn; an empty conversation
reconstructs to the empty state, and a chat on an empty conversation hands
the Agent Runtime exactly two turns — the system turn then the user turn. -/
theorem C8_system_prepend (gen : Nat → String) (msg : String) (stream : AgentStream)
    (h : List LCMessage) :
    (prependSystem h = systemTurn :: h ↔ (h = [] ∨ h.head?.map isSystemLC = some false)) ∧
    load_conversation_history ([] : List Message) = [] ∧
    (chat gen [] msg stream).invoked = [systemTurn, LCMessage.human msg] := by
  refine ⟨?_, rfl, rfl⟩
  cases h with
  | nil => simp [prependSystem, needsSystem]
  | cons t ts =>
    cases t with
    | system c =>
      simp only [prependSystem, needsSystem, if_neg (by simp : ¬ (false = true))]
      constructor
      · intro hEq
        rcases List.cons.inj hEq with ⟨_, h2⟩
        exact absurd h2.symm (List.cons_ne_self _ _)
      · intro hOr
        rcases hOr with hOr | hOr
        · cases hOr
        · simp [isSystemLC] at hOr
    | human c => simp [prependSystem, needsSystem, isSystemLC]
    | ai c tcs => simp [prependSystem, needsSystem, isSystemLC]
    | toolMsg c i n => simp [prependSystem, needsSystem, isSystemLC]

/-- C10: history reconstruction has no branch for the `system` role, so no
reconstructed turn is a system turn and the loaded state never begins with
one; consequently the orchestrator's prepend condition holds on every
invocation and the dialogue handed to the Agent Runtime always begins with
the fixed system turn; and no record persisted by a chat run carries the
`system` role, so the prompt itself is never persisted. -/
theorem C10_system_role_omitted (msgs : List Message) (gen : Nat → String)
    (user : String) (stream : AgentStream) :
    ((load_conversation_history msgs).all fun t => !(isSystemLC t)) = true ∧
    needsSystem (load_conversation_history msgs) = true ∧
    (chat gen msgs user stream).invoked.head? = some systemTurn ∧
    ((chat gen msgs user stream).saves.all fun m => !(decide (m.role = Role.system))) = true := by
  have hall : ∀ t ∈ load_conversation_history msgs, isSystemLC t = false := by
    intro t ht
    rcases List.mem_filterMap.mp ht with ⟨m, _, hc⟩
    rcases convertMessage_shape m t hc with ⟨_, hv⟩ | ⟨_, _, hv⟩ | ⟨_, hv⟩ <;> rw [hv] <;> rfl
  have hneed : needsSystem (load_conversation_history msgs) = true := by
    cases hL : load_conversation_history msgs with
    | nil => rfl
    | cons t ts =>
      have : isSystemLC t = false := hall t (by rw [hL]; exact List.mem_cons_self t ts)
      cases t with
      | system c => simp [isSystemLC] at this
      | human c => rfl
      | ai c tcs => rfl
      | toolMsg c i n => rfl
  refine ⟨?_, hneed, ?_, ?_⟩
  · rw [List.all_eq_true]
    intro t ht
    simp [hall t ht]
  · show (prependSystem (load_conversation_history msgs) ++ [LCMessage.human user]).head? =
      some systemTurn
    rw [prependSystem, if_pos hneed]
    rfl
  · obtain ⟨sevs, sfail⟩ := stream
    rw [List.all_eq_true]
    intro m hm
    cases sfail with
    | some d =>
      simp only [chat, List.append_nil, List.mem_cons] at hm
      rcases hm with rfl | hm
      · simp [userSaveRecord]
      · rcases processEvents_saves_mem gen sevs initialChatState m hm with h | ⟨h, _⟩ <;>
          simp [h]
    | none =>
      simp only [chat, List.mem_cons, List.mem_append] at hm
      rcases hm with rfl | hm | hm
      · simp [userSaveRecord]
      · rcases processEvents_saves_mem gen sevs initialChatState m hm with h | ⟨h, _⟩ <;>
          simp [h]
      · split at hm
        · rcases List.mem_singleton.mp hm with rfl
          simp [finalAssistantSave]
        · simp at hm

/-! ## Tool catalog (`agent/tools.py`) and backend client (`agent/client.py`) -/

/-- A knowledge-base entry (`models.QAPair`); the identifier is kept as its
string rendering and timestamps are omitted. -/
structure QAPair where
  id : String
  question : String
  answer : String
deriving DecidableEq

/-- `models.SearchQAResponse`: the ranked entries and the backend-reported
count (a separate field, not recomputed from the list). -/
structure SearchQAResponse where
  qa_pairs : List QAPair
  count : Nat
deriving DecidableEq

/-- `models.GetQAByIDsResponse`. -/
structure GetQAByIDsResponse where
  qa_pairs : List QAPair
deriving DecidableEq

/-- A Python exception, classified by the handler classes this code names:
`ValueError` (including pydantic's `ValidationError` subclass),
`NotImplementedError`, and any other `Exception`. -/
inductive PyError
  | valueError (msg : String)
  | notImplementedError (msg : String)
  | otherError (msg : String)
deriving DecidableEq

/-- `str(e)` of an exception. -/
def PyError.msg : PyError → String
  | PyError.valueError m => m
  | PyError.notImplementedError m => m
  | PyError.otherError m => m

/-- The exception classes named by `except` clauses in tools.py. -/
inductive PyErrorClass
  | valueErrorClass
  | notImplementedErrorClass
  | exceptionClass
deriving DecidableEq

/-- Whether an exception is caught by an `except <class>` clause:
`Exception` catches everything, `ValueError` and `NotImplementedError`
catch their own class only. -/
def PyError.matchesClass : PyError → PyErrorClass → Bool
  | _, PyErrorClass.exceptionClass => true
  | PyError.valueError _, PyErrorClass.valueErrorClass => true
  | PyError.notImplementedError _, PyErrorClass.notImplementedErrorClass => true
  | _, _ => false

/-- A `try` block with its ordered `except` clauses: the first clause whose
class matches the raised exception handles it (the handler may itself raise
or return normally); an unmatched exception propagates. -/
def pyTry (body : Except PyError String)
    (handlers : List (PyErrorClass × (PyError → Except PyError String))) :
    Except PyError String :=
  match body with
  | Except.ok s => Except.ok s
  | Except.error e =>
    match handlers.find? (fun hd => e.matchesClass hd.1) with
    | some hd => hd.2 e
    | none => Except.error e

/-- The remote knowledge-base service behind the two HTTP search endpoints,
abstracted as arbitrary request/response functions (an `error` models a
failed HTTP call surfacing through `raise_for_status`). -/
structure Backend where
  search : String → Int → Except PyError SearchQAResponse
  getByIds : List String → Except PyError GetQAByIDsResponse

/-- Stand-in text of the pydantic `ValidationError` raised when a
`SearchQARequest` violates `query: min_length=1, max_length=200` or
`limit: ge=1, le=100` (models.py lines 59-64; the concrete pydantic message
text is abbreviated). -/
def searchValidationErrorMsg : String :=
  "1 validation error for SearchQARequest: String should have at least 1 character"

/-- Stand-in text of the `ValidationError` for `GetQAByIDsRequest`
(`ids: min_length=1, max_length=50`, models.py lines 75-79). -/
def getValidationErrorMsg : String :=
  "1 validation error for GetQAByIDsRequest"

/-- `BackendClient.search_qa` (client.py lines 45-57): construct a
`SearchQARequest` — whose pydantic validation raises on an empty or
overlong query or an out-of-range limit — then call the backend. -/
def BackendClient.search_qa (b : Backend) (query : String) (limit : Int) :
    Except PyError SearchQAResponse :=
  if query.length < 1 ∨ 200 < query.length ∨ limit < 1 ∨ 100 < limit then
    Except.error (PyError.valueError searchValidationErrorMsg)
  else b.search query limit

/-- `BackendClient.get_qa_by_ids` (client.py lines 59-70) with the
`GetQAByIDsRequest` validation. -/
def BackendClient.get_qa_by_ids (b : Backend) (ids : List String) :
    Except PyError GetQAByIDsResponse :=
  if ids.length < 1 ∨ 50 < ids.length then
    Except.error (PyError.valueError getValidationErrorMsg)
  else b.getByIds ids

/-- `BackendClient.semantic_search_qa` (client.py lines 96-116): fall back
to full-text search while `use_pinecone` is off, otherwise raise
`NotImplementedError("Pinecone integration pending")`. -/
def BackendClient.semantic_search_qa (b : Backend) (use_pinecone : Bool)
    (query : String) (top_k : Int) : Except PyError SearchQAResponse :=
  if use_pinecone = false then BackendClient.search_qa b query top_k
  else Except.error (PyError.notImplementedError "Pinecone integration pending")

/-- Hexadecimal digit test for the `int(hex, 16)` step of `uuid.UUID`. -/
def isHexChar (c : Char) : Bool :=
  c.isDigit || ('a' ≤ c && c ≤ 'f') || ('A' ≤ c && c ≤ 'F')

/-- Python `str.strip("\x7b\x7d")`: remove braces from both ends. -/
def stripBraces (s : List Char) : List Char :=
  ((s.dropWhile fun c => c == '\x7b' || c == '\x7d').reverse.dropWhile
    fun c => c == '\x7b' || c == '\x7d').reverse

/-- The message of the `ValueError` raised by `uuid.UUID` on a malformed
identifier string. -/
def badUUIDMsg : String := "badly formed hexadecimal UUID string"

/-- Models the normalization performed by Python's stdlib `uuid.UUID(str)`
constructor: drop an `urn:` / `uuid:` prefix, strip surrounding braces,
remove hyphens, then require exactly 32 hexadecimal digits.  `str.replace`
of the two prefixes is modelled as prefix removal (their only occurrence
position in well-formed inputs) and `int(hex, 16)` as a strict hex-digit
check. -/
def pythonUUIDnormalize (s : String) : Option String :=
  let t1 := if ("urn:".data).isPrefixOf s.data then s.data.drop 4 else s.data
  let t2 := if ("uuid:".data).isPrefixOf t1 then t1.drop 5 else t1
  let u := (stripBraces t2).filter fun c => c != '-'
  if u.length = 32 ∧ u.all isHexChar then some (String.mk u) else none

/-- The comprehension `[UUID(qa_id) for qa_id in qa_ids]` (tools.py line
58): it raises `ValueError` at the first identifier `uuid.UUID` rejects. -/
def parseUUIDs : List String → Except PyError (List String)
  | [] => Except.ok []
  | i :: rest =>
    match pythonUUIDnormalize i with
    | none => Except.error (PyError.valueError badUUIDMsg)
    | some u => (parseUUIDs rest).map (fun us => u :: us)

/-- One numbered block of a `search_knowledge_base` result (tools.py 33-39). -/
def formatSearchResult (iqa : Nat × QAPair) : String :=
  s!"Result {iqa.1}:\nQuestion: {iqa.2.question}\nAnswer: {iqa.2.answer}\nID: {iqa.2.id}"

/-- The `try` body of `search_knowledge_base` (tools.py lines 26-41). -/
def search_knowledge_base_body (b : Backend) (query : String) (limit : Int) :
    Except PyError String := do
  let response ← BackendClient.search_qa b query (min limit 10)
  if response.count = 0 then
    pure "No relevant information found in the knowledge base."
  else
    pure (String.intercalate "\n\n"
      ((response.qa_pairs.enumFrom 1).map formatSearchResult))

/-- `search_knowledge_base` (tools.py lines 11-43): the body under a single
`except Exception` clause returning a descriptive error string. -/
def search_knowledge_base (b : Backend) (query : String) (limit : Int) :
    Except PyError String :=
  pyTry (search_knowledge_base_body b query limit)
    [(PyErrorClass.exceptionClass,
      fun e => Except.ok ("Error searching knowledge base: " ++ e.msg))]

/-- The `try` body of `get_qa_by_ids` (tools.py lines 56-74). -/
def get_qa_by_ids_body (b : Backend) (qa_ids : List String) : Except PyError String := do
  let uuids ← parseUUIDs qa_ids
  let response ← BackendClient.get_qa_by_ids b uuids
  if response.qa_pairs = [] then
    pure "No Q&A pairs found for the provided IDs."
  else
    pure (String.intercalate "\n\n"
      (response.qa_pairs.map fun qa =>
        s!"ID: {qa.id}\nQuestion: {qa.question}\nAnswer: {qa.answer}"))

/-- `get_qa_by_ids` (tools.py lines 46-78): `except ValueError` then
`except Exception`, in that order. -/
def get_qa_by_ids (b : Backend) (qa_ids : List String) : Except PyError String :=
  pyTry (get_qa_by_ids_body b qa_ids)
    [(PyErrorClass.valueErrorClass,
      fun e => Except.ok ("Invalid UUID format: " ++ e.msg)),
     (PyErrorClass.exceptionClass,
      fun e => Except.ok ("Error retrieving Q&A pairs: " ++ e.msg))]

/-- The `try` body of `semantic_search_knowledge_base` (tools.py 92-106). -/
def semantic_search_knowledge_base_body (b : Backend) (use_pinecone : Bool)
    (query : String) (top_k : Int) : Except PyError String := do
  let response ← BackendClient.semantic_search_qa b use_pinecone query top_k
  if response.count = 0 then
    pure "No semantically similar information found."
  else
    pure (String.intercalate "\n\n"
      ((response.qa_pairs.enumFrom 1).map fun iqa =>
        s!"Result {iqa.1}:\nQuestion: {iqa.2.question}\nAnswer: {iqa.2.answer}"))

/-- Stand-in message of the exception raised when the fallback handler
(tools.py line 109) calls `search_knowledge_base(query, top_k)` directly:
at module scope that name is the `@tool`-wrapped `StructuredTool` object
(the very object listed in `tools`), not the plain async function, and
calling it with two positional arguments raises instead of searching. -/
def toolObjectCallErrorMsg : String :=
  "StructuredTool object is not callable with positional arguments"

/-- `semantic_search_knowledge_base` (tools.py lines 81-111):
`except NotImplementedError` attempts the fallback
`return await search_knowledge_base(query, top_k)` — but that call raises
(`search_knowledge_base` is the `@tool`-wrapped `StructuredTool` object),
and an exception raised inside an `except` handler is not caught by the
sibling `except Exception` clause, so it propagates to the caller; the
handler is therefore modelled as raising `toolObjectCallErrorMsg`.  The
second clause, `except Exception`, returns a descriptive error string. -/
def semantic_search_knowledge_base (b : Backend) (use_pinecone : Bool)
    (query : String) (top_k : Int) : Except PyError String :=
  pyTry (semantic_search_knowledge_base_body b use_pinecone query top_k)
    [(PyErrorClass.notImplementedErrorClass,
      fun _ => Except.error (PyError.otherError toolObjectCallErrorMsg)),
     (PyErrorClass.exceptionClass,
      fun e => Except.ok ("Error in semantic search: " ++ e.msg))]

/-- The `try` body of `list_knowledge_base_topics` (tools.py lines 126-138):
request `search_qa("", limit=100)` and format one numbered line per entry. -/
def list_knowledge_base_topics_body (b : Backend) : Except PyError String := do
  let response ← BackendClient.search_qa b "" 100
  if response.count = 0 then
    pure "The knowledge base is currently empty. No Q&A pairs have been added yet."
  else
    pure (s!"Knowledge Base Contents ({response.count} Q&A pairs):\n\n" ++
      String.intercalate "\n"
        ((response.qa_pairs.enumFrom 1).map fun iqa =>
          s!"{iqa.1}. {iqa.2.question} (ID: {iqa.2.id})"))

/-- `list_knowledge_base_topics` (tools.py lines 114-140): the body under a
single `except Exception` clause. -/
def list_knowledge_base_topics (b : Backend) : Except PyError String :=
  pyTry (list_knowledge_base_topics_body b)
    [(PyErrorClass.exceptionClass,
      fun e => Except.ok ("Error listing topics: " ++ e.msg))]

lemma search_knowledge_base_ok (b : Backend) (query : String) (limit : Int) :
    ∃ s, search_knowledge_base b query limit = Except.ok s := by
  unfold search_knowledge_base pyTry
  cases hb : search_knowledge_base_body b query limit with
  | ok s => exact ⟨s, rfl⟩
  | error e => cases e <;> exact ⟨_, rfl⟩

lemma parseUUIDs_error (ids : List String) (h : ∃ i ∈ ids, pythonUUIDnormalize i = none) :
    parseUUIDs ids = Except.error (PyError.valueError badUUIDMsg) := by
  induction ids with
  | nil => simp at h
  | cons i rest ih =>
    rcases h with ⟨j, hj, hnone⟩
    rcases List.mem_cons.mp hj with rfl | hj
    · unfold parseUUIDs
      rw [hnone]
    · unfold parseUUIDs
      cases hpi : pythonUUIDnormalize i with
      | none => rfl
      | some u =>
        rw [ih ⟨j, hj, hnone⟩]
        rfl

/-- A backend whose every call fails (an unreachable search service). -/
def bFail : Backend :=
  { search := fun _ _ => Except.error (PyError.otherError "HTTP 500"),
    getByIds := fun _ => Except.error (PyError.otherError "HTTP 500") }

/-- C5 counterexample: with the Pinecone flag on, the semantic capability
raises to its caller on every invocation — the client raises
`NotImplementedError`, the fallback handler's direct call of the
`@tool`-wrapped object itself raises, and the sibling `except Exception`
clause does not catch an exception raised inside a handler — refuting the
claim that every capability returns a plain string for every input. -/
theorem C5_counterexample :
    semantic_search_knowledge_base bFail true "q" 5 =
      Except.error (PyError.otherError toolObjectCallErrorMsg) := by
  rfl

/-- Any error of the semantic-search body comes from the client call (the
rest of the body only formats a successful response). -/
lemma semantic_body_error (b : Backend) (up : Bool) (q : String) (tk : Int)
    (e : PyError)
    (h : semantic_search_knowledge_base_body b up q tk = Except.error e) :
    BackendClient.semantic_search_qa b up q tk = Except.error e := by
  unfold semantic_search_knowledge_base_body at h
  cases hc : BackendClient.semantic_search_qa b up q tk with
  | ok r =>
    rw [hc] at h
    have h2 : (if r.count = 0 then
        (Except.ok "No semantically similar information found." :
          Except PyError String)
      else Except.ok (String.intercalate "\n\n"
        ((r.qa_pairs.enumFrom 1).map fun iqa =>
          s!"Result {iqa.1}:\nQuestion: {iqa.2.question}\nAnswer: {iqa.2.answer}"))) =
        Except.error e := h
    split at h2 <;> exact Except.noConfusion h2
  | error e2 =>
    rw [hc] at h
    have h2 : (Except.error e2 : Except PyError String) = Except.error e := h
    injection h2 with h3
    rw [h3]

/-- C5 (amended): the capabilities `search_knowledge_base`, `get_qa_by_ids`
and `list_knowledge_base_topics` are total toward their caller for every
backend behavior and argument list — including failing backend calls and
malformed identifier strings — returning a plain string (a human-readable
error description on internal failure); `semantic_search_knowledge_base` is
total while the Pinecone flag is off (the shipped configuration, in which
the client falls back internally and never raises `NotImplementedError`),
but with the flag on it raises to the Agent Runtime on every invocation,
because the `NotImplementedError` fallback handler's direct call of the
`@tool`-wrapped object raises and no sibling clause catches it.  On a
failing backend search the full-text tool returns the descriptive error
string, and on a malformed UUID the lookup tool returns the invalid-format
string. -/
theorem C5_tools_totality (b : Backend) (q : String) (l tk : Int)
    (ids : List String) :
    (∃ s, search_knowledge_base b q l = Except.ok s) ∧
    (∃ s, get_qa_by_ids b ids = Except.ok s) ∧
    (∃ s, list_knowledge_base_topics b = Except.ok s) ∧
    ((∀ m, b.search q tk ≠ Except.error (PyError.notImplementedError m)) →
      ∃ s, semantic_search_knowledge_base b false q tk = Except.ok s) ∧
    (semantic_search_knowledge_base b true q tk =
      Except.error (PyError.otherError toolObjectCallErrorMsg)) ∧
    (∀ em, BackendClient.search_qa b q (min l 10) = Except.error em →
      search_knowledge_base b q l =
        Except.ok ("Error searching knowledge base: " ++ em.msg)) ∧
    ((∃ i ∈ ids, pythonUUIDnormalize i = none) →
      get_qa_by_ids b ids = Except.ok ("Invalid UUID format: " ++ badUUIDMsg)) := by
  refine ⟨search_knowledge_base_ok b q l, ?_, ?_, ?_, ?_, ?_, ?_⟩
  · unfold get_qa_by_ids pyTry
    cases hb : get_qa_by_ids_body b ids with
    | ok s => exact ⟨s, rfl⟩
    | error e => cases e <;> exact ⟨_, rfl⟩
  · unfold list_knowledge_base_topics pyTry
    cases hb : list_knowledge_base_topics_body b with
    | ok s => exact ⟨s, rfl⟩
    | error e => cases e <;> exact ⟨_, rfl⟩
  · intro hni
    unfold semantic_search_knowledge_base pyTry
    cases hb : semantic_search_knowledge_base_body b false q tk with
    | ok s => exact ⟨s, rfl⟩
    | error e =>
      cases e with
      | valueError m => exact ⟨_, rfl⟩
      | otherError m => exact ⟨_, rfl⟩
      | notImplementedError m =>
        exfalso
        have hcl := semantic_body_error b false q tk _ hb
        unfold BackendClient.semantic_search_qa at hcl
        rw [if_pos rfl] at hcl
        unfold BackendClient.search_qa at hcl
        split at hcl
        · injection hcl with h3
          exact PyError.noConfusion h3
        · exact hni m hcl
  · unfold semantic_search_knowledge_base pyTry
    rw [show semantic_search_knowledge_base_body b true q tk =
        Except.error (PyError.notImplementedError "Pinecone integration pending") from rfl]
    rfl
  · intro em hem
    have hbody : search_knowledge_base_body b q l = Except.error em := by
      unfold search_knowledge_base_body
      rw [hem]
      rfl
    unfold search_knowledge_base pyTry
    rw [hbody]
    cases em <;> rfl
  · intro hbad
    have hbody : get_qa_by_ids_body b ids =
        Except.error (PyError.valueError badUUIDMsg) := by
      unfold get_qa_by_ids_body
      rw [parseUUIDs_error ids hbad]
      rfl
    unfold get_qa_by_ids pyTry
    rw [hbody]
    rfl

/-- C5 (amended) witness: against a failing backend, the full-text tool
returns the descriptive error string, the lookup tool returns the
invalid-format string for the malformed identifier `"not-a-uuid"`, and the
semantic tool with the flag off still returns a plain string. -/
theorem C5_tools_totality_witness :
    search_knowledge_base bFail "q" 5 =
      Except.ok ("Error searching knowledge base: " ++
        (PyError.otherError "HTTP 500").msg) ∧
    get_qa_by_ids bFail ["not-a-uuid"] =
      Except.ok ("Invalid UUID format: " ++ badUUIDMsg) ∧
    (∃ s, semantic_search_knowledge_base bFail false "q" 5 = Except.ok s) :=
  ⟨(C5_tools_totality bFail "q" 5 5 ["not-a-uuid"]).2.2.2.2.2.1
      (PyError.otherError "HTTP 500") (by rfl),
   (C5_tools_totality bFail "q" 5 5 ["not-a-uuid"]).2.2.2.2.2.2
      ⟨"not-a-uuid", by decide, by decide⟩,
   (C5_tools_totality bFail "q" 5 5 ["not-a-uuid"]).2.2.2.1
      (fun m h => by injection h with h2; exact PyError.noConfusion h2)⟩

/-- C9 (code evaluation): `list_knowledge_base_topics` requests
`search_qa("", limit=100)`, but `SearchQARequest.query` carries
`min_length=1`, so the request model raises a validation error before any
backend call is made, and the capability returns the error string on every
invocation — it never returns a listing, whatever the knowledge base
holds.  The capability's own docstring promises a list of all Q&A pairs. -/
theorem C9_list_topics_always_error (b : Backend) :
    list_knowledge_base_topics b =
      Except.ok ("Error listing topics: " ++ searchValidationErrorMsg) := by
  have hbody : list_knowledge_base_topics_body b =
      Except.error (PyError.valueError searchValidationErrorMsg) := by
    unfold list_knowledge_base_topics_body BackendClient.search_qa
    rw [if_pos (Or.inl (by decide))]
    rfl
  unfold list_knowledge_base_topics pyTry
  rw [hbody]
  rfl

end AmosAgent
